import Mathlib

/-!
Verification of the batch-job orchestration subsystem of dsearch
(`app/services/batch/batch_service.py`, `document_processor.py`,
`job_scheduler.py`, together with the pydantic models in
`app/models/batch.py`).

The embedding is shallow: Redis holds one serialized `BatchJob` per key
`batch_job:<id>`, modelled as a list of jobs keyed by `id`; timestamps are
abstract instants (`Nat`) passed to each operation as `now`; uuid4 id
generation is modelled by a fresh-id counter `nextId`.  The asynchronous
executor launched by `execute_job` and the detached supervisory waiter
`_wait_for_job_completion` are modelled as separate state transitions: the
executor's outcome (normal return, escaping exception, or cancellation) is a
value of `ExecOutcome` handed to the waiter.
-/

namespace DSearch

/-- `BatchJobStatus` from `app/models/batch.py` (six values, including
`RETRYING`, which no operation of the service ever assigns). -/
inductive BatchJobStatus
  | pending
  | running
  | completed
  | failed
  | cancelled
  | retrying
deriving DecidableEq, Repr

/-- `BatchJobType` from `app/models/batch.py`. -/
inductive BatchJobType
  | documentIndex
  | documentUpdate
  | documentDelete
  | bulkIndex
  | indexMaintenance
  | vectorGeneration
  | dataMigration
deriving DecidableEq, Repr

/-- `BatchJobPriority` from `app/models/batch.py`. -/
inductive BatchJobPriority
  | low
  | normal
  | high
  | urgent
deriving DecidableEq, Repr

/-- Parameters of a `DOCUMENT_INDEX` job (`DocumentIndexJob` in
`app/models/batch.py`).  `metadata` and `extract_text` do not influence the
success/failure outcome modelled here and are omitted. -/
structure DocumentIndexJob where
  filePath : String
  documentId : Option String := none
  category : Option String := none
  generateVector : Bool := true
deriving DecidableEq, Repr

/-- Parameters of a `BULK_INDEX` job (`BulkIndexJob` in
`app/models/batch.py`). -/
structure BulkIndexJob where
  sourcePath : String
  indexName : String
  batchSize : Nat := 100
  includePatterns : Option (List String) := none
  excludePatterns : Option (List String) := none
  overwriteExisting : Bool := false
  generateVectors : Bool := true
deriving DecidableEq, Repr

/-- The job-type-specific `parameters` dict of a job, as the closed union of
the parameter shapes the dispatch in `_execute_job_by_type` parses. -/
inductive JobParams
  | docIndex (p : DocumentIndexJob)
  | bulkIndex (p : BulkIndexJob)
  | maintenance (indexNames : List String) (operations : List String)
  | raw (pairs : List (String × String))
deriving DecidableEq, Repr

/-- Result dict of `DocumentProcessor.index_document`. -/
structure IndexResult where
  success : Bool
  documentId : Option String := none
  indexedAt : Option Nat := none
  error : Option String := none
  filePath : Option String := none
deriving DecidableEq, Repr

/-- Result dict of `DocumentProcessor.bulk_index_documents`. -/
structure BulkResult where
  success : Bool
  message : Option String := none
  totalFiles : Nat := 0
  processedCount : Nat := 0
  failedCount : Nat := 0
  failedFiles : List String := []
  indexName : Option String := none
  error : Option String := none
deriving DecidableEq, Repr

/-- An executor's opaque result map, as stored in `BatchJob.result`. -/
inductive JobResult
  | indexRes (r : IndexResult)
  | bulkRes (r : BulkResult)
  | otherRes
deriving DecidableEq, Repr

/-- The `error_details` dict written by `_wait_for_job_completion`:
`{"error": str(e), "type": type(e).__name__}`. -/
structure ErrorDetails where
  error : String
  errType : String
deriving DecidableEq, Repr

/-- `BatchJob` from `app/models/batch.py`: id plus the `BatchJobCreate`
fields plus status/progress/result/error/timestamps/attempts.  Defaults are
the pydantic field defaults (`status=PENDING`, `progress_percent=0`,
`attempts=0`).  `updated_at`, `worker_id` and `scheduled_at` play no role in
any claim and are omitted. -/
structure BatchJob where
  id : Nat
  jobType : BatchJobType
  name : String
  description : Option String := none
  parameters : Option JobParams := none
  priority : BatchJobPriority := .normal
  retryCount : Nat := 0
  timeoutSeconds : Nat := 3600
  status : BatchJobStatus := .pending
  progressPercent : Nat := 0
  message : Option String := none
  result : Option JobResult := none
  errorDetails : Option ErrorDetails := none
  startedAt : Option Nat := none
  completedAt : Option Nat := none
  attempts : Nat := 0
  createdAt : Nat := 0
deriving DecidableEq, Repr

/-- `BatchJobCreate` from `app/models/batch.py`. -/
structure BatchJobCreate where
  jobType : BatchJobType
  name : String
  description : Option String := none
  parameters : Option JobParams := none
  priority : BatchJobPriority := .normal
  retryCount : Nat := 0
  timeoutSeconds : Nat := 3600
deriving DecidableEq, Repr

/-- `BatchJobUpdate` from `app/models/batch.py`.  A field holds `some v`
when the caller passed it (pydantic `exclude_unset`), `none` when unset.
Note: the model has NO `attempts` field; the service's pydantic `Config`
does not set `extra`, so an `attempts=...` keyword passed to the
constructor (as `retry_job` does) is silently ignored. -/
structure BatchJobUpdate where
  status : Option BatchJobStatus := none
  progressPercent : Option Nat := none
  message : Option String := none
  result : Option JobResult := none
  errorDetails : Option ErrorDetails := none
  completedAt : Option Nat := none
deriving DecidableEq, Repr

/-- The state of `BatchService`: the Redis-backed job store (one record per
id), the `_running_jobs` handle table (ids of in-flight asyncio tasks), the
set of handles whose cancellation has been requested via `task.cancel()`,
and the fresh-uuid counter. -/
structure ServiceState where
  store : List BatchJob
  runningJobs : List Nat
  cancelRequested : List Nat := []
  nextId : Nat := 0
deriving DecidableEq, Repr

/-- `BatchService.get_job`: fetch `batch_job:<id>` from Redis. -/
def get_job (store : List BatchJob) (jobId : Nat) : Option BatchJob :=
  store.find? (fun j => j.id == jobId)

/-- `BatchService._store_job`: `redis.set("batch_job:<id>", job.dict())` —
overwrites the record with this id, or creates it. -/
def store_job (store : List BatchJob) (job : BatchJob) : List BatchJob :=
  if store.any (fun j => j.id == job.id) then
    store.map (fun j => if j.id == job.id then job else j)
  else
    store ++ [job]

/-- The `setattr` loop of `BatchService.update_job`: each field present in
`update_data.dict(exclude_unset=True)` overwrites the job's field. -/
def applyUpdate (u : BatchJobUpdate) (j : BatchJob) : BatchJob :=
  { j with
    status := u.status.getD j.status
    progressPercent := u.progressPercent.getD j.progressPercent
    message := match u.message with | some m => some m | none => j.message
    result := match u.result with | some r => some r | none => j.result
    errorDetails := match u.errorDetails with | some e => some e | none => j.errorDetails
    completedAt := match u.completedAt with | some t => some t | none => j.completedAt }

/-- The `# Update timestamps` block of `BatchService.update_job`: if the
update's status is RUNNING and `started_at` is unset, stamp `started_at`;
else if the update's status is COMPLETED or FAILED, stamp `completed_at`
(unconditionally — the source has no unset-guard here, and CANCELLED is
not in the list). -/
def mergeTimestamps (now : Nat) (u : BatchJobUpdate) (j1 : BatchJob) :
    BatchJob :=
  if u.status = some .running ∧ j1.startedAt = none then
    { j1 with startedAt := some now }
  else if u.status = some .completed ∨ u.status = some .failed then
    { j1 with completedAt := some now }
  else j1

/-- `BatchService.update_job`: merge the supplied fields into the stored
record, stamp timestamps, persist.  Returns the new store and whether the
job existed. -/
def update_job (now : Nat) (store : List BatchJob) (jobId : Nat)
    (u : BatchJobUpdate) : List BatchJob × Bool :=
  match get_job store jobId with
  | none => (store, false)
  | some job =>
    (store_job store (mergeTimestamps now u (applyUpdate u job)), true)

/-- `BatchService.create_job`: generate a fresh id, build a `BatchJob` from
the creation fields (pydantic defaults give status PENDING, progress 0,
attempts 0), store it, return it. -/
def create_job (now : Nat) (s : ServiceState) (jd : BatchJobCreate) :
    ServiceState × BatchJob :=
  let job : BatchJob :=
    { id := s.nextId
      jobType := jd.jobType
      name := jd.name
      description := jd.description
      parameters := jd.parameters
      priority := jd.priority
      retryCount := jd.retryCount
      timeoutSeconds := jd.timeoutSeconds
      createdAt := now }
  ({ s with store := store_job s.store job, nextId := s.nextId + 1 }, job)

/-- Descending insertion by `created_at` (newest first), modelling
`jobs.sort(key=lambda x: x.created_at, reverse=True)`. -/
def insertByCreatedDesc (j : BatchJob) : List BatchJob → List BatchJob
  | [] => [j]
  | x :: xs =>
    if x.createdAt ≤ j.createdAt then j :: x :: xs
    else x :: insertByCreatedDesc j xs

/-- Sort newest-first by `created_at`. -/
def sortByCreatedDesc (l : List BatchJob) : List BatchJob :=
  l.foldr insertByCreatedDesc []

/-- `BatchService.list_jobs`: scan every `batch_job:*` record, keep those
matching the optional status / job-type equality filters, sort newest
first, return at most `limit`. -/
def list_jobs (store : List BatchJob) (statusF : Option BatchJobStatus)
    (typeF : Option BatchJobType) (limit : Nat) : List BatchJob :=
  let jobs := store.filter (fun j =>
    (match statusF with | some st => j.status == st | none => true) &&
    (match typeF with | some t => j.jobType == t | none => true))
  (sortByCreatedDesc jobs).take limit

/-- `BatchService.execute_job`: no job or status ≠ PENDING → `false`
without side effects; otherwise mark the job RUNNING with message
"Job started", launch the executor as an asyncio task and register its
handle in `_running_jobs`, and return `true`. -/
def execute_job (now : Nat) (s : ServiceState) (jobId : Nat) :
    ServiceState × Bool :=
  match get_job s.store jobId with
  | none => (s, false)
  | some job =>
    if job.status ≠ .pending then (s, false)
    else
      let st := (update_job now s.store jobId
        { status := some .running, message := some "Job started" }).1
      ({ s with store := st, runningJobs := s.runningJobs ++ [jobId] }, true)

/-- `BatchService.cancel_job`: if a handle is registered for the id,
request cancellation of the task and drop the handle; then unconditionally
update the job to CANCELLED with message "Job cancelled by user"; return
`true`. -/
def cancel_job (now : Nat) (s : ServiceState) (jobId : Nat) :
    ServiceState × Bool :=
  let s1 :=
    if jobId ∈ s.runningJobs then
      { s with
        runningJobs := s.runningJobs.filter (fun i => i ≠ jobId)
        cancelRequested := s.cancelRequested ++ [jobId] }
    else s
  let st := (update_job now s1.store jobId
    { status := some .cancelled, message := some "Job cancelled by user" }).1
  ({ s1 with store := st }, true)

/-- `BatchService.retry_job`: no job, status ≠ FAILED, or
`attempts >= retry_count` → `false` without side effects; otherwise update
the job to PENDING with message "Job queued for retry" — the
`attempts=job.attempts + 1` keyword passed to `BatchJobUpdate` names no
field of that model and is silently dropped by pydantic (default
`extra='ignore'`), so the stored `attempts` is NOT changed — and then call
`execute_job`. -/
def retry_job (now : Nat) (s : ServiceState) (jobId : Nat) :
    ServiceState × Bool :=
  match get_job s.store jobId with
  | none => (s, false)
  | some job =>
    if job.status ≠ .failed then (s, false)
    else if job.retryCount ≤ job.attempts then (s, false)
    else
      let st := (update_job now s.store jobId
        { status := some .pending, message := some "Job queued for retry" }).1
      execute_job now { s with store := st } jobId

/-- `BatchService.delete_job`: cancel first when a handle is registered,
then delete the record; returns whether a record was deleted. -/
def delete_job (now : Nat) (s : ServiceState) (jobId : Nat) :
    ServiceState × Bool :=
  let s1 := if jobId ∈ s.runningJobs then (cancel_job now s jobId).1 else s
  let existed := s1.store.any (fun j => j.id == jobId)
  ({ s1 with store := s1.store.filter (fun j => j.id ≠ jobId) }, existed)

/-- Outcome of awaiting the executor task in
`_wait_for_job_completion`: a normal return value, an escaping exception
(kind = `type(e).__name__`, msg = `str(e)`), or `asyncio.CancelledError`. -/
inductive ExecOutcome
  | ret (r : JobResult)
  | raised (kind msg : String)
  | taskCancelled
deriving DecidableEq, Repr

/-- `BatchService._wait_for_job_completion`: on a normal return, update the
job to COMPLETED with progress 100, message "Job completed successfully"
and the result; on an escaping exception, update to FAILED with
`error_details = {"error": str(e), "type": type(e).__name__}`; on
cancellation, perform no update.  In every case drop the handle entry. -/
def wait_for_job_completion (now : Nat) (s : ServiceState) (jobId : Nat)
    (outcome : ExecOutcome) : ServiceState :=
  let s1 :=
    match outcome with
    | .ret r =>
      { s with store := (update_job now s.store jobId
          { status := some .completed, progressPercent := some 100,
            message := some "Job completed successfully",
            result := some r }).1 }
    | .raised kind msg =>
      { s with store := (update_job now s.store jobId
          { status := some .failed,
            message := some ("Job failed: " ++ msg),
            errorDetails := some { error := msg, errType := kind } }).1 }
    | .taskCancelled => s
  { s1 with runningJobs := s1.runningJobs.filter (fun i => i ≠ jobId) }

/-- The stats dict built by `BatchService.get_job_statistics`. -/
structure BatchStats where
  totalJobs : Nat
  pendingJobs : Nat
  runningJobs : Nat
  completedJobs : Nat
  failedJobs : Nat
  cancelledJobs : Nat
  successRatePercent : Option ℚ := none
deriving DecidableEq, Repr

/-- `BatchService.get_job_statistics`: calls `self.list_jobs()` — with the
default `limit=50` and no filters — and counts the listed jobs per status;
`success_rate_percent` is added only when completed + failed > 0. -/
def get_job_statistics (s : ServiceState) : BatchStats :=
  let jobs := list_jobs s.store none none 50
  let completed := (jobs.filter (fun j => j.status == .completed)).length
  let failed := (jobs.filter (fun j => j.status == .failed)).length
  { totalJobs := jobs.length
    pendingJobs := (jobs.filter (fun j => j.status == .pending)).length
    runningJobs := (jobs.filter (fun j => j.status == .running)).length
    completedJobs := completed
    failedJobs := failed
    cancelledJobs := (jobs.filter (fun j => j.status == .cancelled)).length
    successRatePercent :=
      if 0 < completed + failed then
        some ((completed : ℚ) / ((completed : ℚ) + (failed : ℚ)) * 100)
      else none }

/-- The external collaborators of `DocumentProcessor` (file system, text
extraction / embedding / Elasticsearch client), abstracted per §6 of the
design: `fileExists` is `FileHandler.file_exists`; `processError f` is
`some msg` when the processing of `f` inside `index_document` (file info,
text extraction, embedding, ES `index`) raises an exception with text
`msg`, `none` when it completes; `docIdOf` is
`FileHandler.generate_document_id` (deterministic, path-derived);
`esExists id` is the ES `exists` check on the target index; `walkFiles p`
is the sorted, include/exclude-filtered file enumeration produced by
`_find_files_to_process(p, ...)` over the external file system. -/
structure ExternalEnv where
  fileExists : String → Bool
  processError : String → Option String
  docIdOf : String → String
  esExists : String → Bool
  walkFiles : String → List String

/-- `DocumentProcessor.index_document`: the whole body sits in one
`try/except Exception`; a missing file raises `FileNotFoundError` which the
method's own handler catches, so every error path RETURNS a
`{"success": False, "error": str(e), "file_path": ...}` dict instead of
raising. -/
def index_document (env : ExternalEnv) (filePath : String)
    (documentId : Option String) : IndexResult :=
  if env.fileExists filePath = false then
    { success := false
      error := some ("File not found: " ++ filePath)
      filePath := some filePath }
  else
    match env.processError filePath with
    | some e =>
      { success := false, error := some e, filePath := some filePath }
    | none =>
      { success := true
        documentId := some (documentId.getD (env.docIdOf filePath)) }

/-- `BatchService._execute_document_index_job`: parses the parameters and
returns whatever dict `index_document` returns.  Since `index_document`
catches its own exceptions, this executor returns normally for every file
path (only pydantic parameter validation could raise, which typed
parameters exclude). -/
def document_index_outcome (env : ExternalEnv) (p : DocumentIndexJob) :
    ExecOutcome :=
  .ret (.indexRes (index_document env p.filePath p.documentId))

/-- Accumulator of the per-file loop in `bulk_index_documents`. -/
structure BulkAcc where
  processed : Nat := 0
  failed : Nat := 0
  failedFiles : List String := []
deriving DecidableEq, Repr

/-- One iteration of the inner `for file_path in batch_files` loop of
`bulk_index_documents`: derive the document id; unless
`overwrite_existing`, skip the file when a document with that id already
exists; otherwise run `index_document` and bump the processed / failed
counters (failed paths are appended). -/
def bulk_process_file (env : ExternalEnv) (overwrite : Bool)
    (acc : BulkAcc) (filePath : String) : BulkAcc :=
  let docId := env.docIdOf filePath
  if overwrite = false ∧ env.esExists docId = true then acc
  else
    let r := index_document env filePath (some docId)
    if r.success then { acc with processed := acc.processed + 1 }
    else
      { acc with
        failed := acc.failed + 1
        failedFiles := acc.failedFiles ++ [filePath] }

/-- The batch slicing `files[i:i+batch_size]` of the outer
`for i in range(0, total_files, batch_size)` loop (`batch_size > 0` is
enforced by the `BulkIndexJob` model; the `n = 0` case mirrors taking the
whole list at once and is unreachable through the model). -/
def chunksOf (n : Nat) (l : List α) : List (List α) :=
  match l with
  | [] => []
  | x :: xs =>
    match n with
    | 0 => [x :: xs]
    | m + 1 => (x :: xs).take (m + 1) :: chunksOf (m + 1) (xs.drop m)
termination_by l.length
decreasing_by
  simp only [List.length_cons, List.length_drop]
  omega

/-- `DocumentProcessor.bulk_index_documents`: enumerate the files under
`source_path`; empty → an early success result with zero counts; otherwise
process the files batch by batch (the per-batch progress callback and the
inter-batch sleep touch no counter), refresh the index, and report the
totals with at most the first 10 failed paths. -/
def bulk_index_documents (env : ExternalEnv) (sourcePath : String)
    (indexName : String) (batchSize : Nat) (overwrite : Bool) : BulkResult :=
  let files := env.walkFiles sourcePath
  if files.isEmpty then
    { success := true
      message := some "No files found to process"
      processedCount := 0
      failedCount := 0 }
  else
    let acc := (chunksOf batchSize files).foldl
      (fun a chunk => chunk.foldl (bulk_process_file env overwrite) a) {}
    { success := true
      totalFiles := files.length
      processedCount := acc.processed
      failedCount := acc.failed
      failedFiles := acc.failedFiles.take 10
      indexName := some indexName }

/-- A file of the bulk run that `index_document` fails on (missing on disk
or raising during processing — "malformed"). -/
def indexFailure (env : ExternalEnv) (f : String) : Bool :=
  !(index_document env f (some (env.docIdOf f))).success

/-- `JobSchedule` from `app/models/batch.py`. -/
structure JobSchedule where
  jobType : BatchJobType
  name : String
  parameters : Option JobParams := none
  cronExpression : String
  enabled : Bool := true
  timezone : String := "Asia/Seoul"
  maxInstances : Nat := 1
deriving DecidableEq, Repr

/-- The `BatchJobCreate` that `JobScheduler._execute_scheduled_job` builds
from a firing spec: the spec's job_type and parameters, a timestamped name
(`nowStr` is `datetime.now().strftime(...)`), description
`"Scheduled execution of <name>"` and priority normal. -/
def schedJobCreate (js : JobSchedule) (nowStr : String) : BatchJobCreate :=
  { jobType := js.jobType
    name := js.name ++ " - " ++ nowStr
    description := some ("Scheduled execution of " ++ js.name)
    parameters := js.parameters
    priority := .normal }

/-- `JobScheduler._execute_scheduled_job`: on a trigger firing, a disabled
spec is skipped silently (no job created, no store write); otherwise the
Job Manager's `create_job` then `execute_job` run on the request built by
`schedJobCreate`. -/
def execute_scheduled_job (now : Nat) (nowStr : String) (s : ServiceState)
    (js : JobSchedule) : ServiceState :=
  if js.enabled = false then s
  else
    let (s1, job) := create_job now s (schedJobCreate js nowStr)
    (execute_job now s1 job.id).1

/-- The update payload issued by the progress callback that
`_execute_bulk_index_job` installs: `BatchJobUpdate(progress_percent=p)`. -/
def progressUpdate (p : Nat) : BatchJobUpdate :=
  { progressPercent := some p }

/-- The states of `BatchService` reachable from a fresh service through the
operations the program actually performs on it: the empty initial state;
`create_job` (from the API, the scheduler firing path and the manual-run
path); `execute_job`; the supervisory waiter's three outcomes;
`cancel_job`; `retry_job`; `delete_job`; the bulk progress callback's
`update_job(id, BatchJobUpdate(progress_percent=p))`.  `update_job` has no
other caller in the repository (the HTTP surface exposes only
create/get/list/execute/cancel/stats), so these payloads are exactly the
writes that occur. -/
inductive Reachable : ServiceState → Prop
  | init : Reachable { store := [], runningJobs := [] }
  | create {s} (now : Nat) (jd : BatchJobCreate) :
      Reachable s → Reachable (create_job now s jd).1
  | execute {s} (now : Nat) (jobId : Nat) :
      Reachable s → Reachable (execute_job now s jobId).1
  | waiter {s} (now : Nat) (jobId : Nat) (outcome : ExecOutcome) :
      Reachable s → Reachable (wait_for_job_completion now s jobId outcome)
  | cancel {s} (now : Nat) (jobId : Nat) :
      Reachable s → Reachable (cancel_job now s jobId).1
  | retry {s} (now : Nat) (jobId : Nat) :
      Reachable s → Reachable (retry_job now s jobId).1
  | del {s} (now : Nat) (jobId : Nat) :
      Reachable s → Reachable (delete_job now s jobId).1
  | progress {s} (now : Nat) (jobId : Nat) (p : Nat) :
      Reachable s →
      Reachable { s with store := (update_job now s.store jobId (progressUpdate p)).1 }

lemma get_job_id_eq {store : List BatchJob} {jobId : Nat} {job : BatchJob}
    (h : get_job store jobId = some job) : job.id = jobId := by
  have hp := List.find?_some h
  simpa using hp

lemma find?_append_of_none {α} {p : α → Bool} {l1 l2 : List α}
    (h : l1.find? p = none) : (l1 ++ l2).find? p = l2.find? p := by
  induction l1 with
  | nil => simp
  | cons x xs ih =>
    rw [List.find?_cons] at h
    cases hx : p x with
    | true => rw [hx] at h; exact absurd h (by simp)
    | false =>
      rw [hx] at h
      simpa [List.find?_cons, hx] using ih h

lemma find?_append_singleton {α} (p : α → Bool) (l : List α) (a : α)
    (h : p a = false) : (l ++ [a]).find? p = l.find? p := by
  induction l with
  | nil => simp [List.find?_cons, h]
  | cons x xs ih =>
    cases hx : p x <;> simp [List.find?_cons, hx, ih]

lemma find?_store_map (store : List BatchJob) (j : BatchJob) :
    ((store.map (fun x => if x.id == j.id then j else x)).find?
        (fun x => x.id == j.id)) =
      (if store.any (fun x => x.id == j.id) then some j else none) := by
  induction store with
  | nil => rfl
  | cons x xs ih =>
    rw [List.map_cons, List.find?_cons, List.any_cons]
    by_cases hx : x.id = j.id
    · have hb : (x.id == j.id) = true := beq_iff_eq.mpr hx
      simp only [hb, eq_self_iff_true, if_true, beq_self_eq_true,
        Bool.true_or]
    · have hb : (x.id == j.id) = false := beq_eq_false_iff_ne.mpr hx
      simp only [hb, Bool.false_eq_true, if_false, Bool.false_or]
      exact ih

lemma find?_store_map_other {i : Nat} (store : List BatchJob)
    (j : BatchJob) (hne : i ≠ j.id) :
    ((store.map (fun x => if x.id == j.id then j else x)).find?
        (fun x => x.id == i)) = store.find? (fun x => x.id == i) := by
  induction store with
  | nil => rfl
  | cons x xs ih =>
    rw [List.map_cons, List.find?_cons, List.find?_cons]
    by_cases hx : x.id = j.id
    · have hb : (x.id == j.id) = true := beq_iff_eq.mpr hx
      have h1 : (j.id == i) = false := beq_eq_false_iff_ne.mpr (Ne.symm hne)
      have h2 : (x.id == i) = false :=
        beq_eq_false_iff_ne.mpr (hx ▸ Ne.symm hne)
      simp only [hb, eq_self_iff_true, if_true, h1, h2]
      exact ih
    · have hb : (x.id == j.id) = false := beq_eq_false_iff_ne.mpr hx
      simp only [hb, Bool.false_eq_true, if_false]
      cases hxi : (x.id == i) with
      | true => simp only [hxi]
      | false => simp only [hxi]; exact ih

/-- After `_store_job`, fetching the stored id yields the stored job. -/
lemma get_job_store_job_self (store : List BatchJob) (j : BatchJob) :
    get_job (store_job store j) j.id = some j := by
  unfold get_job store_job
  by_cases h : (store.any fun x => x.id == j.id) = true
  · rw [if_pos h, find?_store_map, if_pos h]
  · rw [if_neg h]
    have hall : ∀ x ∈ store, ¬ ((fun x : BatchJob => x.id == j.id) x = true) := by
      intro x hx hbx
      exact h (List.any_eq_true.mpr ⟨x, hx, hbx⟩)
    have hnone : store.find? (fun x => x.id == j.id) = none :=
      List.find?_eq_none.mpr hall
    rw [find?_append_of_none hnone]
    simp [List.find?_cons]

/-- `_store_job` leaves every other id's record unchanged. -/
lemma get_job_store_job_other {i : Nat} (store : List BatchJob)
    (j : BatchJob) (hne : i ≠ j.id) :
    get_job (store_job store j) i = get_job store i := by
  unfold get_job store_job
  by_cases h : (store.any fun x => x.id == j.id) = true
  · rw [if_pos h, find?_store_map_other store j hne]
  · rw [if_neg h,
      find?_append_singleton (fun x : BatchJob => x.id == i) store j
        (beq_eq_false_iff_ne.mpr (Ne.symm hne))]

/-- Every record in the store after `_store_job` is the stored job or one
of the previous records. -/
lemma mem_store_job {x j : BatchJob} {store : List BatchJob}
    (h : x ∈ store_job store j) : x = j ∨ x ∈ store := by
  unfold store_job at h
  by_cases hany : (store.any fun y => y.id == j.id) = true
  · rw [if_pos hany] at h
    obtain ⟨y, hy, hxy⟩ := List.mem_map.mp h
    by_cases hyid : y.id = j.id
    · left; rw [← hxy]; simp [hyid]
    · right; rw [← hxy]; simpa [hyid] using hy
  · rw [if_neg hany] at h
    rcases List.mem_append.mp h with h1 | h1
    · exact .inr h1
    · exact .inl (by simpa using h1)

/-- Unfolding `update_job` when the job exists. -/
lemma update_job_found {store : List BatchJob} {jobId : Nat}
    {job : BatchJob} (now : Nat) (u : BatchJobUpdate)
    (h : get_job store jobId = some job) :
    update_job now store jobId u =
      (store_job store (mergeTimestamps now u (applyUpdate u job)), true) := by
  unfold update_job
  rw [h]

lemma update_job_not_found {store : List BatchJob} {jobId : Nat}
    (now : Nat) (u : BatchJobUpdate) (h : get_job store jobId = none) :
    update_job now store jobId u = (store, false) := by
  unfold update_job
  rw [h]

lemma applyUpdate_id (u : BatchJobUpdate) (j : BatchJob) :
    (applyUpdate u j).id = j.id := rfl

lemma mergeTimestamps_id (now : Nat) (u : BatchJobUpdate) (j : BatchJob) :
    (mergeTimestamps now u j).id = j.id := by
  unfold mergeTimestamps
  split
  · rfl
  · split <;> rfl

/-- After a successful `update_job`, fetching the id yields the merged,
timestamp-stamped record. -/
lemma get_job_update_self {store : List BatchJob} {jobId : Nat}
    {job : BatchJob} (now : Nat) (u : BatchJobUpdate)
    (h : get_job store jobId = some job) :
    get_job (update_job now store jobId u).1 jobId =
      some (mergeTimestamps now u (applyUpdate u job)) := by
  rw [update_job_found now u h]
  have hid : (mergeTimestamps now u (applyUpdate u job)).id = jobId := by
    rw [mergeTimestamps_id, applyUpdate_id, get_job_id_eq h]
  rw [← hid]
  exact get_job_store_job_self store _

/-- `update_job` does not touch records with a different id. -/
lemma get_job_update_other {store : List BatchJob} {jobId i : Nat}
    (now : Nat) (u : BatchJobUpdate) (hne : i ≠ jobId) :
    get_job (update_job now store i u).1 jobId = get_job store jobId := by
  cases hg : get_job store i with
  | none => rw [update_job_not_found now u hg]
  | some job =>
    rw [update_job_found now u hg]
    have hid : (mergeTimestamps now u (applyUpdate u job)).id = i := by
      rw [mergeTimestamps_id, applyUpdate_id, get_job_id_eq hg]
    exact get_job_store_job_other store _ (by rw [hid]; exact Ne.symm hne)

lemma mergeTimestamps_status (now : Nat) (u : BatchJobUpdate)
    (j : BatchJob) : (mergeTimestamps now u j).status = j.status := by
  unfold mergeTimestamps
  split
  · rfl
  · split <;> rfl

lemma mergeTimestamps_message (now : Nat) (u : BatchJobUpdate)
    (j : BatchJob) : (mergeTimestamps now u j).message = j.message := by
  unfold mergeTimestamps
  split
  · rfl
  · split <;> rfl

lemma mergeTimestamps_attempts (now : Nat) (u : BatchJobUpdate)
    (j : BatchJob) : (mergeTimestamps now u j).attempts = j.attempts := by
  unfold mergeTimestamps
  split
  · rfl
  · split <;> rfl

lemma mergeTimestamps_errorDetails (now : Nat) (u : BatchJobUpdate)
    (j : BatchJob) :
    (mergeTimestamps now u j).errorDetails = j.errorDetails := by
  unfold mergeTimestamps
  split
  · rfl
  · split <;> rfl

/-- When the update's status is COMPLETED or FAILED, the stamping step
overwrites `completed_at` with `now` unconditionally. -/
lemma mergeTimestamps_completedAt_terminal (now : Nat) (u : BatchJobUpdate)
    (j : BatchJob) (h : u.status = some .completed ∨ u.status = some .failed) :
    (mergeTimestamps now u j).completedAt = some now := by
  unfold mergeTimestamps
  have h1 : ¬(u.status = some .running ∧ j.startedAt = none) := by
    rintro ⟨hr, -⟩
    rcases h with h | h <;> rw [h] at hr <;> simp at hr
  rw [if_neg h1, if_pos h]

/-- When the update's status is CANCELLED, the stamping step touches no
timestamp at all. -/
lemma mergeTimestamps_cancelled (now : Nat) (u : BatchJobUpdate)
    (j : BatchJob) (h : u.status = some .cancelled) :
    mergeTimestamps now u j = j := by
  unfold mergeTimestamps
  rw [if_neg (by rintro ⟨hr, -⟩; rw [h] at hr; cases hr),
    if_neg (by rintro (hc | hc) <;> rw [h] at hc <;> cases hc)]

/-- Unfolding `execute_job` when the job exists. -/
lemma execute_job_found {s : ServiceState} {jobId : Nat} {job : BatchJob}
    (now : Nat) (h : get_job s.store jobId = some job) :
    execute_job now s jobId =
      (if job.status ≠ .pending then (s, false)
       else ({ s with
                store := (update_job now s.store jobId
                  { status := some .running,
                    message := some "Job started" }).1
                runningJobs := s.runningJobs ++ [jobId] }, true)) := by
  unfold execute_job
  rw [h]

/-- C5: for every job id, `execute(id)` returns false and leaves the
stored record (indeed the whole service state) unchanged unless the job
exists and its current status is pending; when the status is pending it
transitions the job to running with message "Job started" and registers
the execution handle, before the executor's outcome is observed. -/
theorem execute_job_noop_unless_pending (now : Nat) (s : ServiceState)
    (jobId : Nat) :
    (get_job s.store jobId = none → execute_job now s jobId = (s, false)) ∧
    (∀ job, get_job s.store jobId = some job → job.status ≠ .pending →
      execute_job now s jobId = (s, false)) ∧
    (∀ job, get_job s.store jobId = some job → job.status = .pending →
      (execute_job now s jobId).2 = true ∧
      jobId ∈ (execute_job now s jobId).1.runningJobs ∧
      ∃ j, get_job (execute_job now s jobId).1.store jobId = some j ∧
        j.status = .running ∧ j.message = some "Job started") := by
  refine ⟨?_, ?_, ?_⟩
  · intro hg
    unfold execute_job
    rw [hg]
  · intro job hg hst
    rw [execute_job_found now hg]
    exact if_pos hst
  · intro job hg hst
    rw [execute_job_found now hg, if_neg (by simp [hst])]
    refine ⟨rfl, by simp, ?_⟩
    refine ⟨_, get_job_update_self now _ hg, ?_, ?_⟩
    · rw [mergeTimestamps_status]
      rfl
    · rw [mergeTimestamps_message]
      rfl

/-- Witness for C5: a concrete pending job is started (true, running,
"Job started"), exercising the theorem's pending branch. -/
theorem execute_job_noop_unless_pending_witness :
    (execute_job 3
      { store := [{ id := 0, jobType := .documentIndex, name := "a",
                    createdAt := 0 }],
        runningJobs := [], nextId := 1 } 0).2 = true ∧
    0 ∈ (execute_job 3
      { store := [{ id := 0, jobType := .documentIndex, name := "a",
                    createdAt := 0 }],
        runningJobs := [], nextId := 1 } 0).1.runningJobs ∧
    ∃ j, get_job (execute_job 3
      { store := [{ id := 0, jobType := .documentIndex, name := "a",
                    createdAt := 0 }],
        runningJobs := [], nextId := 1 } 0).1.store 0 = some j ∧
      j.status = .running ∧ j.message = some "Job started" :=
  (execute_job_noop_unless_pending 3
    { store := [{ id := 0, jobType := .documentIndex, name := "a",
                  createdAt := 0 }],
      runningJobs := [], nextId := 1 } 0).2.2
    { id := 0, jobType := .documentIndex, name := "a", createdAt := 0 }
    (by decide) (by decide)

/-- C6: for every stored job, `cancel(id)` returns true, requests
cancellation of the registered handle when one exists and removes it, and
marks the stored record cancelled unconditionally — with no precondition
on the job's current status, so also when no handle exists and the job is
already terminal. -/
theorem cancel_job_unconditional (now : Nat) (s : ServiceState)
    (jobId : Nat) (job : BatchJob) (hg : get_job s.store jobId = some job) :
    (cancel_job now s jobId).2 = true ∧
    jobId ∉ (cancel_job now s jobId).1.runningJobs ∧
    (jobId ∈ s.runningJobs →
      jobId ∈ (cancel_job now s jobId).1.cancelRequested) ∧
    ∃ j, get_job (cancel_job now s jobId).1.store jobId = some j ∧
      j.status = .cancelled ∧ j.message = some "Job cancelled by user" := by
  by_cases hr : jobId ∈ s.runningJobs
  · unfold cancel_job
    rw [if_pos hr]
    refine ⟨rfl, by simp, fun _ => by simp, ?_⟩
    refine ⟨_, get_job_update_self now _ hg, ?_, ?_⟩
    · rw [mergeTimestamps_status]
      rfl
    · rw [mergeTimestamps_message]
      rfl
  · unfold cancel_job
    rw [if_neg hr]
    refine ⟨rfl, hr, fun h => absurd h hr, ?_⟩
    refine ⟨_, get_job_update_self now _ hg, ?_, ?_⟩
    · rw [mergeTimestamps_status]
      rfl
    · rw [mergeTimestamps_message]
      rfl

/-- Witness for C6: cancelling a job that is already COMPLETED, with no
registered handle, still returns true and overwrites the stored status
with CANCELLED. -/
theorem cancel_job_unconditional_witness :
    (cancel_job 9
      { store := [{ id := 0, jobType := .bulkIndex, name := "b",
                    status := .completed, completedAt := some 4,
                    createdAt := 0 }],
        runningJobs := [], nextId := 1 } 0).2 = true ∧
    0 ∉ (cancel_job 9
      { store := [{ id := 0, jobType := .bulkIndex, name := "b",
                    status := .completed, completedAt := some 4,
                    createdAt := 0 }],
        runningJobs := [], nextId := 1 } 0).1.runningJobs ∧
    (0 ∈ ([] : List Nat) →
      0 ∈ (cancel_job 9
        { store := [{ id := 0, jobType := .bulkIndex, name := "b",
                      status := .completed, completedAt := some 4,
                      createdAt := 0 }],
          runningJobs := [], nextId := 1 } 0).1.cancelRequested) ∧
    ∃ j, get_job (cancel_job 9
      { store := [{ id := 0, jobType := .bulkIndex, name := "b",
                    status := .completed, completedAt := some 4,
                    createdAt := 0 }],
        runningJobs := [], nextId := 1 } 0).1.store 0 = some j ∧
      j.status = .cancelled ∧ j.message = some "Job cancelled by user" :=
  cancel_job_unconditional 9
    { store := [{ id := 0, jobType := .bulkIndex, name := "b",
                  status := .completed, completedAt := some 4,
                  createdAt := 0 }],
      runningJobs := [], nextId := 1 } 0
    { id := 0, jobType := .bulkIndex, name := "b", status := .completed,
      completedAt := some 4, createdAt := 0 }
    (by decide)

/-- C7: `create` persists a record with a fresh id — distinct from every
stored job's id, given the generator invariant that stored ids are below
the counter — and a `get` of that id returns the very record `create`
returned, whose status is pending, attempts 0 and progress 0. -/
theorem create_then_get (now : Nat) (s : ServiceState)
    (jd : BatchJobCreate) (hfresh : ∀ j ∈ s.store, j.id < s.nextId) :
    get_job (create_job now s jd).1.store (create_job now s jd).2.id =
      some (create_job now s jd).2 ∧
    (create_job now s jd).2.status = .pending ∧
    (create_job now s jd).2.attempts = 0 ∧
    (create_job now s jd).2.progressPercent = 0 ∧
    ∀ j ∈ s.store, j.id ≠ (create_job now s jd).2.id := by
  refine ⟨?_, rfl, rfl, rfl, ?_⟩
  · exact get_job_store_job_self s.store _
  · intro j hj
    have := hfresh j hj
    simp only [create_job]
    omega

/-- Witness for C7: creating a job over a one-job store yields id 1, found
by `get` as a pending record with attempts 0 and progress 0. -/
theorem create_then_get_witness :
    get_job (create_job 2
      { store := [{ id := 0, jobType := .documentIndex, name := "a",
                    createdAt := 0 }],
        runningJobs := [], nextId := 1 }
      { jobType := .bulkIndex, name := "bulk" }).1.store
      (create_job 2
        { store := [{ id := 0, jobType := .documentIndex, name := "a",
                      createdAt := 0 }],
          runningJobs := [], nextId := 1 }
        { jobType := .bulkIndex, name := "bulk" }).2.id =
      some (create_job 2
        { store := [{ id := 0, jobType := .documentIndex, name := "a",
                      createdAt := 0 }],
          runningJobs := [], nextId := 1 }
        { jobType := .bulkIndex, name := "bulk" }).2 ∧
    (create_job 2
      { store := [{ id := 0, jobType := .documentIndex, name := "a",
                    createdAt := 0 }],
        runningJobs := [], nextId := 1 }
      { jobType := .bulkIndex, name := "bulk" }).2.status = .pending ∧
    (create_job 2
      { store := [{ id := 0, jobType := .documentIndex, name := "a",
                    createdAt := 0 }],
        runningJobs := [], nextId := 1 }
      { jobType := .bulkIndex, name := "bulk" }).2.attempts = 0 ∧
    (create_job 2
      { store := [{ id := 0, jobType := .documentIndex, name := "a",
                    createdAt := 0 }],
        runningJobs := [], nextId := 1 }
      { jobType := .bulkIndex, name := "bulk" }).2.progressPercent = 0 ∧
    ∀ j ∈ [{ id := 0, jobType := .documentIndex, name := "a",
             createdAt := 0 : BatchJob }],
      j.id ≠ (create_job 2
        { store := [{ id := 0, jobType := .documentIndex, name := "a",
                      createdAt := 0 }],
          runningJobs := [], nextId := 1 }
        { jobType := .bulkIndex, name := "bulk" }).2.id :=
  create_then_get 2
    { store := [{ id := 0, jobType := .documentIndex, name := "a",
                  createdAt := 0 }],
      runningJobs := [], nextId := 1 }
    { jobType := .bulkIndex, name := "bulk" }
    (by decide)

/-- A failed document-index job with `attempts = 0` and `retry_count = 3`:
`retry` accepts it, so per the spec its stored `attempts` should become 1. -/
def failedRetryJob : BatchJob :=
  { id := 0
    jobType := .documentIndex
    name := "doc"
    parameters := some (.docIndex { filePath := "/docs/a.pdf" })
    retryCount := 3
    status := .failed
    attempts := 0
    message := some "Job failed: boom"
    startedAt := some 1
    createdAt := 0 }

/-- The service state holding only `failedRetryJob`. -/
def failedRetryState : ServiceState :=
  { store := [failedRetryJob], runningJobs := [], nextId := 1 }

/-- C1: evaluating the code at the failing input: `retry(0)` on a failed
job with attempts 0 and retry_count 3 succeeds (true, job re-executed and
running), but the stored `attempts` is still 0, not 1 — the
`attempts=job.attempts + 1` keyword passed to `BatchJobUpdate` in
`retry_job` names no field of that model, and the pydantic configuration
(no `extra` set, hence ignore) drops it silently, so no retry is ever
counted and the `attempts < retry_count` bound never engages. -/
theorem retry_job_drops_attempts :
    (retry_job 7 failedRetryState 0).2 = true ∧
    (get_job (retry_job 7 failedRetryState 0).1.store 0).map
      (fun j => j.attempts) = some 0 ∧
    (get_job (retry_job 7 failedRetryState 0).1.store 0).map
      (fun j => j.status) = some .running := by
  decide

/-- A job already completed at instant 5. -/
def completedAtFiveJob : BatchJob :=
  { id := 0
    jobType := .documentIndex
    name := "d"
    status := .completed
    startedAt := some 1
    completedAt := some 5
    createdAt := 0 }

/-- A running job whose `completed_at` is unset. -/
def runningNoCompletedJob : BatchJob :=
  { id := 1
    jobType := .documentIndex
    name := "e"
    status := .running
    startedAt := some 1
    createdAt := 0 }

/-- C3 counterexample: (1) updating a job whose `completed_at` is already
set (some 5) to the terminal status COMPLETED at now = 9 overwrites
`completed_at` with 9 — it is re-assigned although already set; (2)
updating a job to the terminal status CANCELLED leaves `completed_at`
unset — it is not assigned when status first becomes terminal.  Both
contradict "completed_at is set to now only if it is currently unset …
assigned exactly once, when status first becomes a terminal value". -/
theorem update_job_completedAt_counterexample :
    completedAtFiveJob.completedAt = some 5 ∧
    (get_job (update_job 9 [completedAtFiveJob] 0
        { status := some .completed }).1 0).map (fun j => j.completedAt) =
      some (some 9) ∧
    runningNoCompletedJob.completedAt = none ∧
    (get_job (update_job 9 [runningNoCompletedJob] 1
        { status := some .cancelled }).1 1).map (fun j => j.completedAt) =
      some none := by
  decide

lemma applyUpdate_completedAt_of_none {u : BatchJobUpdate} (j : BatchJob)
    (h : u.completedAt = none) :
    (applyUpdate u j).completedAt = j.completedAt := by
  unfold applyUpdate
  rw [h]

/-- C3 amended: for every stored job and every update whose merged status
is COMPLETED or FAILED, `completed_at` is set to now unconditionally,
overwriting any previously set value; an update whose merged status is
CANCELLED (the third terminal value) never sets `completed_at`.  So
`completed_at` records the most recent completed/failed transition, not
the first terminal one. -/
theorem update_job_completedAt_amended (now : Nat)
    (store : List BatchJob) (jobId : Nat) (u : BatchJobUpdate)
    (job : BatchJob) (hg : get_job store jobId = some job) :
    ((u.status = some .completed ∨ u.status = some .failed) →
      (get_job (update_job now store jobId u).1 jobId).map
        (fun j => j.completedAt) = some (some now)) ∧
    (u.status = some .cancelled → u.completedAt = none →
      (get_job (update_job now store jobId u).1 jobId).map
        (fun j => j.completedAt) = some job.completedAt) := by
  constructor
  · intro ht
    rw [get_job_update_self now u hg]
    simp only [Option.map_some']
    rw [mergeTimestamps_completedAt_terminal now u _ ht]
  · intro hc hnone
    rw [get_job_update_self now u hg]
    simp only [Option.map_some']
    rw [mergeTimestamps_cancelled now u _ hc,
      applyUpdate_completedAt_of_none job hnone]

/-- Witness for the amended C3: re-completing `completedAtFiveJob` at 9
overwrites `completed_at` to 9, and cancelling `runningNoCompletedJob`
leaves its `completed_at` unset. -/
theorem update_job_completedAt_amended_witness :
    (get_job (update_job 9 [completedAtFiveJob] 0
        { status := some .completed }).1 0).map (fun j => j.completedAt) =
      some (some 9) ∧
    (get_job (update_job 9 [runningNoCompletedJob] 1
        { status := some .cancelled }).1 1).map (fun j => j.completedAt) =
      some runningNoCompletedJob.completedAt :=
  ⟨(update_job_completedAt_amended 9 [completedAtFiveJob] 0
      { status := some .completed } completedAtFiveJob (by decide)).1
      (Or.inl rfl),
   (update_job_completedAt_amended 9 [runningNoCompletedJob] 1
      { status := some .cancelled } runningNoCompletedJob (by decide)).2
      rfl rfl⟩

/-- An external environment in which no file exists. -/
def envMissingFile : ExternalEnv :=
  { fileExists := fun _ => false
    processError := fun _ => none
    docIdOf := fun p => p
    esExists := fun _ => false
    walkFiles := fun _ => [] }

/-- A running document-index job whose source path does not exist in
`envMissingFile`. -/
def runningDocJob : BatchJob :=
  { id := 0
    jobType := .documentIndex
    name := "doc"
    parameters := some (.docIndex { filePath := "/docs/missing.pdf" })
    status := .running
    startedAt := some 1
    createdAt := 0 }

/-- The service state in which `runningDocJob` is in flight. -/
def docMissingState : ServiceState :=
  { store := [runningDocJob], runningJobs := [0], nextId := 1 }

/-- C2 counterexample: for a document-index job whose source file path
does not exist, no exception escapes the executor — `index_document`
catches its own `FileNotFoundError` and returns a `success=False` dict —
so the supervisory waiter receives a normal return and marks the job
COMPLETED with empty `error_details`, not failed. -/
theorem doc_index_missing_file_completes :
    document_index_outcome envMissingFile { filePath := "/docs/missing.pdf" } =
      .ret (.indexRes
        { success := false
          error := some "File not found: /docs/missing.pdf"
          filePath := some "/docs/missing.pdf" }) ∧
    (get_job (wait_for_job_completion 5 docMissingState 0
        (document_index_outcome envMissingFile
          { filePath := "/docs/missing.pdf" })).store 0).map
      (fun j => j.status) = some .completed ∧
    (get_job (wait_for_job_completion 5 docMissingState 0
        (document_index_outcome envMissingFile
          { filePath := "/docs/missing.pdf" })).store 0).map
      (fun j => j.errorDetails) = some none := by
  decide

/-- C2 amended: for every job whose executor raises an exception that
actually escapes it (e.g. pydantic parameter validation or the unknown
job-type `ValueError` of the dispatch — NOT a document-index job with a
missing source path, whose executor returns a `success=False` result and
completes), the supervisory waiter marks the stored job failed with
`error_details = {"error": str(e), "type": type(e).__name__}`, whose kind
and message are non-empty whenever the raised exception's type name and
text are (Python type names always are). -/
theorem waiter_marks_failed_on_raised (now : Nat) (s : ServiceState)
    (jobId : Nat) (job : BatchJob) (kind msg : String)
    (hg : get_job s.store jobId = some job)
    (hk : kind ≠ "") (hm : msg ≠ "") :
    ∃ j, get_job
        (wait_for_job_completion now s jobId (.raised kind msg)).store
        jobId = some j ∧
      j.status = .failed ∧
      j.errorDetails = some { error := msg, errType := kind } ∧
      j.message = some ("Job failed: " ++ msg) ∧
      ∀ ed, j.errorDetails = some ed → ed.errType ≠ "" ∧ ed.error ≠ "" := by
  refine ⟨_, get_job_update_self now _ hg, ?_, ?_, ?_, ?_⟩
  · rw [mergeTimestamps_status]
    rfl
  · rw [mergeTimestamps_errorDetails]
    rfl
  · rw [mergeTimestamps_message]
    rfl
  · intro ed hed
    rw [mergeTimestamps_errorDetails] at hed
    have : ed = { error := msg, errType := kind } :=
      (Option.some.inj hed).symm
    rw [this]
    exact ⟨hk, hm⟩

/-- Witness for the amended C2: the waiter, observing an escaping
`ValueError`, marks the in-flight job failed with the error's kind and
message in `error_details`. -/
theorem waiter_marks_failed_on_raised_witness :
    ∃ j, get_job (wait_for_job_completion 5 docMissingState 0
        (.raised "ValueError" "Unknown job type: data_migration")).store
        0 = some j ∧
      j.status = .failed ∧
      j.errorDetails = some
        { error := "Unknown job type: data_migration"
          errType := "ValueError" } ∧
      j.message = some ("Job failed: " ++ "Unknown job type: data_migration") ∧
      ∀ ed, j.errorDetails = some ed → ed.errType ≠ "" ∧ ed.error ≠ "" :=
  waiter_marks_failed_on_raised 5 docMissingState 0 runningDocJob
    "ValueError" "Unknown job type: data_migration" (by decide)
    (by decide) (by decide)

/-- Folding batch by batch over the slices visits exactly the underlying
files in order: the slicing of the outer loop cannot change any per-file
accumulation. -/
lemma foldl_chunksOf {α β : Type} (f : β → α → β) :
    (n : Nat) → (l : List α) → (init : β) →
      (chunksOf n l).foldl (fun a c => c.foldl f a) init = l.foldl f init
  | _, [], _ => by simp [chunksOf]
  | 0, _ :: _, _ => by simp [chunksOf]
  | m + 1, x :: xs, init => by
    rw [chunksOf]
    rw [List.foldl_cons]
    rw [foldl_chunksOf f (m + 1) (xs.drop m)
      (((x :: xs).take (m + 1)).foldl f init)]
    rw [← List.foldl_append]
    rw [show xs.drop m = (x :: xs).drop (m + 1) from rfl]
    rw [List.take_append_drop]
termination_by _ l _ => l.length
decreasing_by
  simp only [List.length_drop, List.length_cons]
  omega

/-- Counting invariant of the per-file loop: when no file is skipped
(overwrite set, or no derived id already indexed), every file bumps
exactly one of the two counters, and the failed counter counts exactly
the files `index_document` fails on. -/
lemma bulk_fold_counts (env : ExternalEnv) (overwrite : Bool) :
    ∀ (files : List String) (acc : BulkAcc),
      (∀ f ∈ files, overwrite = true ∨ env.esExists (env.docIdOf f) = false) →
      (files.foldl (bulk_process_file env overwrite) acc).processed +
        (files.foldl (bulk_process_file env overwrite) acc).failed =
        acc.processed + acc.failed + files.length ∧
      (files.foldl (bulk_process_file env overwrite) acc).failed =
        acc.failed + files.countP (fun f => indexFailure env f) := by
  intro files
  induction files with
  | nil => intro acc _; simp
  | cons f fs ih =>
    intro acc hns
    have hskip : ¬(overwrite = false ∧ env.esExists (env.docIdOf f) = true) := by
      rcases hns f (List.mem_cons_self f fs) with h | h
      · rintro ⟨ho, -⟩; rw [h] at ho; cases ho
      · rintro ⟨-, he⟩; rw [h] at he; cases he
    have hns' : ∀ g ∈ fs, overwrite = true ∨ env.esExists (env.docIdOf g) = false :=
      fun g hg => hns g (List.mem_cons_of_mem f hg)
    have hstep : bulk_process_file env overwrite acc f =
        (if (index_document env f (some (env.docIdOf f))).success = true then
          { acc with processed := acc.processed + 1 }
        else
          { acc with failed := acc.failed + 1
                     failedFiles := acc.failedFiles ++ [f] }) := by
      unfold bulk_process_file
      rw [if_neg hskip]
    rw [List.foldl_cons, List.countP_cons, hstep]
    cases hr : (index_document env f (some (env.docIdOf f))).success with
    | true =>
      have hp : indexFailure env f = false := by
        unfold indexFailure; rw [hr]; rfl
      simp only [eq_self_iff_true, if_true]
      obtain ⟨h1, h2⟩ := ih { acc with processed := acc.processed + 1 } hns'
      refine ⟨?_, ?_⟩
      · rw [h1]; simp; omega
      · rw [h2]; simp [hp]
    | false =>
      have hp : indexFailure env f = true := by
        unfold indexFailure; rw [hr]; rfl
      simp only [Bool.false_eq_true, if_false]
      obtain ⟨h1, h2⟩ := ih
        { acc with failed := acc.failed + 1
                   failedFiles := acc.failedFiles ++ [f] } hns'
      refine ⟨?_, ?_⟩
      · rw [h1]; simp; omega
      · rw [h2]; simp [hp]; omega

/-- C4: bulk-indexing a source path holding N matching files of which K
are malformed (files `index_document` fails on) returns normally — the
job itself never raises — with `processed_count + failed_count = N` and
`failed_count = K`, provided no file is silently skipped as already
indexed (`overwrite_existing` set, or no derived id present in the
index). -/
theorem bulk_index_counts (env : ExternalEnv) (sourcePath indexName : String)
    (batchSize : Nat) (overwrite : Bool)
    (hns : ∀ f ∈ env.walkFiles sourcePath,
      overwrite = true ∨ env.esExists (env.docIdOf f) = false) :
    (bulk_index_documents env sourcePath indexName batchSize overwrite).success
      = true ∧
    (bulk_index_documents env sourcePath indexName batchSize
        overwrite).processedCount +
      (bulk_index_documents env sourcePath indexName batchSize
        overwrite).failedCount = (env.walkFiles sourcePath).length ∧
    (bulk_index_documents env sourcePath indexName batchSize
        overwrite).failedCount =
      (env.walkFiles sourcePath).countP (fun f => indexFailure env f) := by
  unfold bulk_index_documents
  cases he : (env.walkFiles sourcePath).isEmpty with
  | true =>
    have : env.walkFiles sourcePath = [] := List.isEmpty_iff.mp he
    rw [this]
    simp
  | false =>
    simp only [he, Bool.false_eq_true, if_false]
    rw [foldl_chunksOf]
    obtain ⟨h1, h2⟩ :=
      bulk_fold_counts env overwrite (env.walkFiles sourcePath) {} hns
    simp only [] at h1 h2
    refine ⟨?_, ?_, ?_⟩
    · trivial
    · simpa using h1
    · simpa using h2

/-- A bulk environment: three files under "/data", one of which
("/data/b.pdf") raises during processing; nothing pre-exists in the
index. -/
def envBulk : ExternalEnv :=
  { fileExists := fun _ => true
    processError := fun f => if f = "/data/b.pdf" then some "Parse error" else none
    docIdOf := fun p => p
    esExists := fun _ => false
    walkFiles := fun p =>
      if p = "/data" then ["/data/a.pdf", "/data/b.pdf", "/data/c.txt"]
      else [] }

/-- Witness for C4: three matching files, one malformed — the run succeeds
with processed + failed = 3 and failed = 1. -/
theorem bulk_index_counts_witness :
    (bulk_index_documents envBulk "/data" "ds_content" 2 false).success
      = true ∧
    (bulk_index_documents envBulk "/data" "ds_content" 2
        false).processedCount +
      (bulk_index_documents envBulk "/data" "ds_content" 2
        false).failedCount = (envBulk.walkFiles "/data").length ∧
    (bulk_index_documents envBulk "/data" "ds_content" 2
        false).failedCount =
      (envBulk.walkFiles "/data").countP (fun f => indexFailure envBulk f) :=
  bulk_index_counts envBulk "/data" "ds_content" 2 false
    (by intro f _; right; rfl)

lemma mergeTimestamps_jobType (now : Nat) (u : BatchJobUpdate)
    (j : BatchJob) : (mergeTimestamps now u j).jobType = j.jobType := by
  unfold mergeTimestamps
  split
  · rfl
  · split <;> rfl

lemma mergeTimestamps_name (now : Nat) (u : BatchJobUpdate)
    (j : BatchJob) : (mergeTimestamps now u j).name = j.name := by
  unfold mergeTimestamps
  split
  · rfl
  · split <;> rfl

lemma mergeTimestamps_parameters (now : Nat) (u : BatchJobUpdate)
    (j : BatchJob) : (mergeTimestamps now u j).parameters = j.parameters := by
  unfold mergeTimestamps
  split
  · rfl
  · split <;> rfl

lemma any_id_of_get_job {store : List BatchJob} {jobId : Nat}
    {job : BatchJob} (h : get_job store jobId = some job) :
    (store.any fun x => x.id == jobId) = true := by
  have h' : store.find? (fun j => j.id == jobId) = some job := h
  have hpa := List.find?_some h'
  exact List.any_eq_true.mpr
    ⟨job, List.mem_of_find?_eq_some h', hpa⟩

/-- A fresh id is not yet a key of the store. -/
lemma store_any_false_of_fresh {store : List BatchJob} {n : Nat}
    (hfresh : ∀ j ∈ store, j.id < n) :
    (store.any fun x => x.id == n) = false := by
  rw [List.any_eq_false]
  intro x hx hbx
  have := hfresh x hx
  have : x.id = n := by simpa using hbx
  omega

lemma store_job_length_fresh {store : List BatchJob} {j : BatchJob}
    (h : (store.any fun x => x.id == j.id) = false) :
    (store_job store j).length = store.length + 1 := by
  unfold store_job
  rw [if_neg (by rw [h]; exact Bool.false_ne_true), List.length_append,
    List.length_cons, List.length_nil]

/-- A successful or failed `update_job` never changes the number of
records. -/
lemma update_job_length (now : Nat) (store : List BatchJob) (jobId : Nat)
    (u : BatchJobUpdate) :
    (update_job now store jobId u).1.length = store.length := by
  cases hg : get_job store jobId with
  | none => rw [update_job_not_found now u hg]
  | some job =>
    rw [update_job_found now u hg]
    show (store_job store (mergeTimestamps now u (applyUpdate u job))).length
      = store.length
    unfold store_job
    have hany : (store.any fun x =>
        x.id == (mergeTimestamps now u (applyUpdate u job)).id) = true := by
      rw [mergeTimestamps_id, applyUpdate_id, get_job_id_eq hg]
      exact any_id_of_get_job hg
    rw [if_pos hany, List.length_map]

/-- C9: when a registered schedule's trigger fires, a disabled spec is
skipped silently — the service state is completely unchanged, so no job is
created and no store write occurs; an enabled spec creates exactly one new
job — the store grows by one record and every other id's record is
untouched — carrying the spec's job_type and parameters and the
timestamped name, and that job is then executed (found running with
message "Job started"). -/
theorem scheduled_fire_spec (now : Nat) (nowStr : String)
    (s : ServiceState) (js : JobSchedule)
    (hfresh : ∀ j ∈ s.store, j.id < s.nextId) :
    (js.enabled = false → execute_scheduled_job now nowStr s js = s) ∧
    (js.enabled = true →
      (execute_scheduled_job now nowStr s js).store.length =
        s.store.length + 1 ∧
      (∀ i, i ≠ s.nextId →
        get_job (execute_scheduled_job now nowStr s js).store i =
          get_job s.store i) ∧
      ∃ j, get_job (execute_scheduled_job now nowStr s js).store s.nextId =
          some j ∧
        j.jobType = js.jobType ∧ j.parameters = js.parameters ∧
        j.name = js.name ++ " - " ++ nowStr ∧
        j.status = .running ∧ j.message = some "Job started") := by
  constructor
  · intro h
    unfold execute_scheduled_job
    rw [if_pos h]
  · intro h
    have hrw : execute_scheduled_job now nowStr s js =
        (execute_job now (create_job now s (schedJobCreate js nowStr)).1
          (create_job now s (schedJobCreate js nowStr)).2.id).1 := by
      unfold execute_scheduled_job
      rw [if_neg (by simp [h])]
    rw [hrw]
    set X := (create_job now s (schedJobCreate js nowStr)).2 with hX
    have hXid : X.id = s.nextId := rfl
    have hs1 : (create_job now s (schedJobCreate js nowStr)).1.store =
        store_job s.store X := rfl
    have hg1 : get_job (create_job now s (schedJobCreate js nowStr)).1.store
        X.id = some X := by
      rw [hs1]
      exact get_job_store_job_self s.store X
    have hXpending : X.status = BatchJobStatus.pending := rfl
    rw [execute_job_found now hg1,
      if_neg (by rw [hXpending]; simp)]
    refine ⟨?_, ?_, ?_⟩
    · show (update_job now (store_job s.store X) X.id _).1.length =
        s.store.length + 1
      rw [update_job_length,
        store_job_length_fresh (by rw [hXid]; exact store_any_false_of_fresh hfresh)]
    · intro i hi
      show get_job (update_job now (store_job s.store X) X.id _).1 i =
        get_job s.store i
      rw [get_job_update_other now _ (by rw [hXid]; exact Ne.symm hi),
        get_job_store_job_other s.store X (by rw [hXid]; exact hi)]
    · rw [← hXid]
      refine ⟨_, get_job_update_self now _ hg1, ?_, ?_, ?_, ?_, ?_⟩
      · rw [mergeTimestamps_jobType]
        rfl
      · rw [mergeTimestamps_parameters]
        rfl
      · rw [mergeTimestamps_name]
        rfl
      · rw [mergeTimestamps_status]
        rfl
      · rw [mergeTimestamps_message]
        rfl

/-- Witness for C9: an enabled and a disabled concrete schedule over a
one-job store; the disabled firing leaves the state intact, the enabled
firing adds one running job built from the spec. -/
theorem scheduled_fire_spec_witness :
    (execute_scheduled_job 8 "2026-10-12 02:00:00"
      { store := [{ id := 0, jobType := .documentIndex, name := "a",
                    createdAt := 0 }],
        runningJobs := [], nextId := 1 }
      { jobType := .indexMaintenance, name := "daily_index_maintenance",
        parameters := some (.maintenance ["ds_content"] ["refresh"]),
        cronExpression := "0 2 * * *", enabled := false } =
      { store := [{ id := 0, jobType := .documentIndex, name := "a",
                    createdAt := 0 }],
        runningJobs := [], nextId := 1 }) ∧
    ((execute_scheduled_job 8 "2026-10-12 02:00:00"
      { store := [{ id := 0, jobType := .documentIndex, name := "a",
                    createdAt := 0 }],
        runningJobs := [], nextId := 1 }
      { jobType := .indexMaintenance, name := "daily_index_maintenance",
        parameters := some (.maintenance ["ds_content"] ["refresh"]),
        cronExpression := "0 2 * * *", enabled := true }).store.length = 2 ∧
    ∃ j, get_job (execute_scheduled_job 8 "2026-10-12 02:00:00"
        { store := [{ id := 0, jobType := .documentIndex, name := "a",
                      createdAt := 0 }],
          runningJobs := [], nextId := 1 }
        { jobType := .indexMaintenance, name := "daily_index_maintenance",
          parameters := some (.maintenance ["ds_content"] ["refresh"]),
          cronExpression := "0 2 * * *", enabled := true }).store 1 =
        some j ∧
      j.jobType = .indexMaintenance ∧
      j.parameters = some (.maintenance ["ds_content"] ["refresh"]) ∧
      j.name = "daily_index_maintenance" ++ " - " ++ "2026-10-12 02:00:00" ∧
      j.status = .running ∧ j.message = some "Job started") := by
  constructor
  · exact (scheduled_fire_spec 8 "2026-10-12 02:00:00"
      { store := [{ id := 0, jobType := .documentIndex, name := "a",
                    createdAt := 0 }],
        runningJobs := [], nextId := 1 }
      { jobType := .indexMaintenance, name := "daily_index_maintenance",
        parameters := some (.maintenance ["ds_content"] ["refresh"]),
        cronExpression := "0 2 * * *", enabled := false }
      (by decide)).1 rfl
  · have h := (scheduled_fire_spec 8 "2026-10-12 02:00:00"
      { store := [{ id := 0, jobType := .documentIndex, name := "a",
                    createdAt := 0 }],
        runningJobs := [], nextId := 1 }
      { jobType := .indexMaintenance, name := "daily_index_maintenance",
        parameters := some (.maintenance ["ds_content"] ["refresh"]),
        cronExpression := "0 2 * * *", enabled := true }
      (by decide)).2 rfl
    exact ⟨h.1, h.2.2⟩

/-- A store of 51 distinct job records. -/
def manyJobsState : ServiceState :=
  { store := (List.range 51).map (fun i =>
      { id := i, jobType := .documentIndex, name := "j", createdAt := 0 })
    runningJobs := []
    nextId := 51 }

/-- C10: `get_job_statistics` counts over `list_jobs()` with its default
`limit=50` and no filters, so the reported total and every per-status
count are at most 50 — concretely, a store of 51 records reports
`total_jobs = 50`. -/
theorem statistics_use_default_limit_50 (s : ServiceState) :
    (get_job_statistics s).totalJobs =
      (list_jobs s.store none none 50).length ∧
    (get_job_statistics s).totalJobs ≤ 50 ∧
    (get_job_statistics s).pendingJobs ≤ 50 ∧
    (get_job_statistics s).runningJobs ≤ 50 ∧
    (get_job_statistics s).completedJobs ≤ 50 ∧
    (get_job_statistics s).failedJobs ≤ 50 ∧
    (get_job_statistics s).cancelledJobs ≤ 50 ∧
    manyJobsState.store.length = 51 ∧
    (get_job_statistics manyJobsState).totalJobs = 50 := by
  have hlen : (list_jobs s.store none none 50).length ≤ 50 := by
    unfold list_jobs
    rw [List.length_take]
    exact min_le_left _ _
  refine ⟨rfl, hlen, ?_, ?_, ?_, ?_, ?_, by decide, by decide⟩
  all_goals exact le_trans (List.length_filter_le _ _) hlen

/-- Each record of `jobs.sort(...)`'s result comes from `jobs`. -/
lemma mem_insertByCreatedDesc {a j : BatchJob} :
    ∀ {l : List BatchJob}, a ∈ insertByCreatedDesc j l → a = j ∨ a ∈ l := by
  intro l
  induction l with
  | nil =>
    intro h
    simp only [insertByCreatedDesc] at h
    simpa using h
  | cons x xs ih =>
    intro h
    unfold insertByCreatedDesc at h
    by_cases hc : x.createdAt ≤ j.createdAt
    · rw [if_pos hc] at h
      rcases List.mem_cons.mp h with h1 | h1
      · exact .inl h1
      · exact .inr h1
    · rw [if_neg hc] at h
      rcases List.mem_cons.mp h with h1 | h1
      · exact .inr (h1 ▸ List.mem_cons_self x xs)
      · rcases ih h1 with h2 | h2
        · exact .inl h2
        · exact .inr (List.mem_cons_of_mem x h2)

lemma mem_sortByCreatedDesc {a : BatchJob} :
    ∀ {l : List BatchJob}, a ∈ sortByCreatedDesc l → a ∈ l := by
  intro l
  induction l with
  | nil => intro h; simp [sortByCreatedDesc] at h
  | cons x xs ih =>
    intro h
    have h' : a ∈ insertByCreatedDesc x (sortByCreatedDesc xs) := h
    rcases mem_insertByCreatedDesc h' with h1 | h1
    · exact h1 ▸ List.mem_cons_self x xs
    · exact List.mem_cons_of_mem x (ih h1)

/-- Each record `list_jobs` returns is a record of the store. -/
lemma mem_list_jobs {j : BatchJob} {store : List BatchJob}
    {statusF : Option BatchJobStatus} {typeF : Option BatchJobType}
    {limit : Nat} (h : j ∈ list_jobs store statusF typeF limit) :
    j ∈ store := by
  unfold list_jobs at h
  have h1 := List.take_subset limit _ h
  have h2 := mem_sortByCreatedDesc h1
  exact List.mem_of_mem_filter h2

/-- Partition of a list of jobs with no RETRYING record into the five
per-status counts of `get_job_statistics`. -/
lemma status_partition (l : List BatchJob)
    (h : ∀ j ∈ l, j.status ≠ .retrying) :
    (l.filter (fun j => j.status == .pending)).length +
      (l.filter (fun j => j.status == .running)).length +
      (l.filter (fun j => j.status == .completed)).length +
      (l.filter (fun j => j.status == .failed)).length +
      (l.filter (fun j => j.status == .cancelled)).length = l.length := by
  induction l with
  | nil => rfl
  | cons x xs ih =>
    have hx : x.status ≠ .retrying := h x (List.mem_cons_self x xs)
    have ihs := ih (fun j hj => h j (List.mem_cons_of_mem x hj))
    cases hst : x.status
    case retrying => exact absurd hst hx
    all_goals
      simp only [List.filter_cons, hst]
      simp
      omega

/-- `_store_job` preserves "no stored record is RETRYING" when the stored
record is not RETRYING. -/
lemma statusOk_store_job {store : List BatchJob} {jb : BatchJob}
    (hstore : ∀ j ∈ store, j.status ≠ .retrying)
    (hj : jb.status ≠ .retrying) :
    ∀ j ∈ store_job store jb, j.status ≠ .retrying := fun j hmem =>
  (mem_store_job hmem).elim (fun he => he ▸ hj) (hstore j)

/-- `update_job` preserves "no stored record is RETRYING" when the update
does not carry status RETRYING. -/
lemma statusOk_update {store : List BatchJob} {jobId : Nat}
    {u : BatchJobUpdate} (now : Nat)
    (hstore : ∀ j ∈ store, j.status ≠ .retrying)
    (hu : u.status ≠ some .retrying) :
    ∀ j ∈ (update_job now store jobId u).1, j.status ≠ .retrying := by
  cases hg : get_job store jobId with
  | none =>
    rw [update_job_not_found now u hg]
    exact hstore
  | some job =>
    rw [update_job_found now u hg]
    apply statusOk_store_job hstore
    rw [mergeTimestamps_status]
    show (u.status.getD job.status) ≠ .retrying
    cases hus : u.status with
    | none =>
      have h' : store.find? (fun j => j.id == jobId) = some job := hg
      exact hstore job (List.mem_of_find?_eq_some h')
    | some st =>
      intro he
      exact hu (by rw [hus, show st = BatchJobStatus.retrying from he])

lemma execute_job_not_found {s : ServiceState} {jobId : Nat} (now : Nat)
    (hg : get_job s.store jobId = none) :
    execute_job now s jobId = (s, false) := by
  unfold execute_job
  rw [hg]

/-- Unfolding `retry_job` when the job exists. -/
lemma retry_job_found {s : ServiceState} {jobId : Nat} {job : BatchJob}
    (now : Nat) (hg : get_job s.store jobId = some job) :
    retry_job now s jobId =
      (if job.status ≠ .failed then (s, false)
       else if job.retryCount ≤ job.attempts then (s, false)
       else execute_job now
        { s with store := (update_job now s.store jobId
            { status := some .pending,
              message := some "Job queued for retry" }).1 } jobId) := by
  unfold retry_job
  rw [hg]

lemma retry_job_not_found {s : ServiceState} {jobId : Nat} (now : Nat)
    (hg : get_job s.store jobId = none) :
    retry_job now s jobId = (s, false) := by
  unfold retry_job
  rw [hg]

/-- `execute_job` preserves "no stored record is RETRYING". -/
lemma statusOk_execute {s : ServiceState} (now jobId : Nat)
    (h : ∀ j ∈ s.store, j.status ≠ .retrying) :
    ∀ j ∈ (execute_job now s jobId).1.store, j.status ≠ .retrying := by
  cases hg : get_job s.store jobId with
  | none =>
    rw [execute_job_not_found now hg]
    exact h
  | some job =>
    rw [execute_job_found now hg]
    by_cases hst : job.status = .pending
    · rw [if_neg (by simp [hst])]
      exact statusOk_update now h (by simp)
    · rw [if_pos hst]
      exact h

/-- `cancel_job` preserves "no stored record is RETRYING". -/
lemma statusOk_cancel {s : ServiceState} (now jobId : Nat)
    (h : ∀ j ∈ s.store, j.status ≠ .retrying) :
    ∀ j ∈ (cancel_job now s jobId).1.store, j.status ≠ .retrying := by
  unfold cancel_job
  by_cases hmem : jobId ∈ s.runningJobs
  · rw [if_pos hmem]
    exact statusOk_update now h (by simp)
  · rw [if_neg hmem]
    exact statusOk_update now h (by simp)

/-- No operation of the service ever stores a RETRYING record: the
invariant holds of every reachable state. -/
lemma reachable_status_ne_retrying {s : ServiceState} (h : Reachable s) :
    ∀ j ∈ s.store, j.status ≠ .retrying := by
  induction h with
  | init => intro j hj; simp at hj
  | create now jd hr ih =>
    exact statusOk_store_job ih (by intro hc; cases hc)
  | execute now jobId hr ih =>
    exact statusOk_execute now jobId ih
  | waiter now jobId outcome hr ih =>
    cases outcome with
    | ret r => exact statusOk_update now ih (by simp)
    | raised kind msg => exact statusOk_update now ih (by simp)
    | taskCancelled => exact ih
  | cancel now jobId hr ih =>
    exact statusOk_cancel now jobId ih
  | retry now jobId hr ih =>
    cases hg : get_job _ jobId with
    | none =>
      rw [retry_job_not_found now hg]
      exact ih
    | some job =>
      rw [retry_job_found now hg]
      by_cases h1 : job.status = .failed
      · rw [if_neg (by simp [h1])]
        by_cases h2 : job.retryCount ≤ job.attempts
        · rw [if_pos h2]
          exact ih
        · rw [if_neg h2]
          exact statusOk_execute now jobId (statusOk_update now ih (by simp))
      · rw [if_pos h1]
        exact ih
  | del now jobId hr ih =>
    rename_i s1
    intro j hj
    have hstore : (delete_job now s1 jobId).1.store =
        ((if jobId ∈ s1.runningJobs then (cancel_job now s1 jobId).1
          else s1).store.filter (fun x => x.id ≠ jobId)) := rfl
    rw [hstore] at hj
    have hj' := List.mem_of_mem_filter hj
    by_cases hmem : jobId ∈ s1.runningJobs
    · rw [if_pos hmem] at hj'
      exact statusOk_cancel now jobId ih j hj'
    · rw [if_neg hmem] at hj'
      exact ih j hj'
  | progress now jobId p hr ih =>
    exact statusOk_update now ih (by simp [progressUpdate])

/-- C8: in every service state reachable through the Job Manager's
operations (create, execute, the supervisory waiter's outcomes, cancel,
retry, delete, and the bulk progress update — the only writes the program
performs), no stored job record carries the sixth status RETRYING, and
consequently the statistics snapshot's per-status counts of completed,
failed, running, pending and cancelled jobs sum to its reported total. -/
theorem statistics_counts_sum_to_total (s : ServiceState)
    (hs : Reachable s) :
    (∀ j ∈ s.store, j.status ≠ .retrying) ∧
    (get_job_statistics s).completedJobs + (get_job_statistics s).failedJobs +
      (get_job_statistics s).runningJobs + (get_job_statistics s).pendingJobs +
      (get_job_statistics s).cancelledJobs =
      (get_job_statistics s).totalJobs := by
  have hinv := reachable_status_ne_retrying hs
  refine ⟨hinv, ?_⟩
  have hjobs : ∀ j ∈ list_jobs s.store none none 50, j.status ≠ .retrying :=
    fun j hj => hinv j (mem_list_jobs hj)
  have hpart := status_partition (list_jobs s.store none none 50) hjobs
  show ((list_jobs s.store none none 50).filter
        (fun j => j.status == .completed)).length +
      ((list_jobs s.store none none 50).filter
        (fun j => j.status == .failed)).length +
      ((list_jobs s.store none none 50).filter
        (fun j => j.status == .running)).length +
      ((list_jobs s.store none none 50).filter
        (fun j => j.status == .pending)).length +
      ((list_jobs s.store none none 50).filter
        (fun j => j.status == .cancelled)).length =
      (list_jobs s.store none none 50).length
  omega

/-- Witness for C8: the reachable state obtained by creating one job in a
fresh service and executing it — its statistics counts sum to its total. -/
theorem statistics_counts_sum_to_total_witness :
    (∀ j ∈ (execute_job 1
        (create_job 0 { store := [], runningJobs := [] }
          { jobType := .documentIndex, name := "w" }).1
        (create_job 0 { store := [], runningJobs := [] }
          { jobType := .documentIndex, name := "w" }).2.id).1.store,
      j.status ≠ .retrying) ∧
    (get_job_statistics ((execute_job 1
        (create_job 0 { store := [], runningJobs := [] }
          { jobType := .documentIndex, name := "w" }).1
        (create_job 0 { store := [], runningJobs := [] }
          { jobType := .documentIndex, name := "w" }).2.id).1)).completedJobs +
      (get_job_statistics ((execute_job 1
        (create_job 0 { store := [], runningJobs := [] }
          { jobType := .documentIndex, name := "w" }).1
        (create_job 0 { store := [], runningJobs := [] }
          { jobType := .documentIndex, name := "w" }).2.id).1)).failedJobs +
      (get_job_statistics ((execute_job 1
        (create_job 0 { store := [], runningJobs := [] }
          { jobType := .documentIndex, name := "w" }).1
        (create_job 0 { store := [], runningJobs := [] }
          { jobType := .documentIndex, name := "w" }).2.id).1)).runningJobs +
      (get_job_statistics ((execute_job 1
        (create_job 0 { store := [], runningJobs := [] }
          { jobType := .documentIndex, name := "w" }).1
        (create_job 0 { store := [], runningJobs := [] }
          { jobType := .documentIndex, name := "w" }).2.id).1)).pendingJobs +
      (get_job_statistics ((execute_job 1
        (create_job 0 { store := [], runningJobs := [] }
          { jobType := .documentIndex, name := "w" }).1
        (create_job 0 { store := [], runningJobs := [] }
          { jobType := .documentIndex, name := "w" }).2.id).1)).cancelledJobs =
      (get_job_statistics ((execute_job 1
        (create_job 0 { store := [], runningJobs := [] }
          { jobType := .documentIndex, name := "w" }).1
        (create_job 0 { store := [], runningJobs := [] }
          { jobType := .documentIndex, name := "w" }).2.id).1)).totalJobs :=
  statistics_counts_sum_to_total _
    (Reachable.execute 1
      (create_job 0 { store := [], runningJobs := [] }
        { jobType := .documentIndex, name := "w" }).2.id
      (Reachable.create 0 { jobType := .documentIndex, name := "w" }
        Reachable.init))

end DSearch
